import Mathlib

/-!
Verification of the School Helper backend (FastAPI + MongoDB CRUD service).

Shallow embedding of the three source files:
  * `schemas.py`  — pydantic models (Student, SubjectMark, Marksheet, AdmitCard,
    Attendance) with their field constraints;
  * `database.py` — the generic document-access helpers `create_document` and
    `get_documents` over a possibly-unconfigured store handle;
  * `main.py`     — the request handlers (create/list/get per entity, the
    marksheet grading computation, `/` and `/test`).

Modelling conventions:
  * Python floats are modelled as `ℚ` (exact arithmetic);
  * `datetime` instants and calendar dates are abstract integers;
  * a Mongo document is an association list `List (String × Val)` with unique
    keys (Python dicts preserve insertion order; assignment replaces in place);
  * the store handle `db` is `Option DBState`: `none` models the unconfigured
    state (missing DATABASE_URL / DATABASE_NAME), `some st` a connected store;
  * clock reads (`datetime.now(timezone.utc)`) are passed in as explicit
    parameters, one per call site, and the store-generated ObjectId is passed
    in as an explicit string parameter.
-/

namespace SchoolHelper

/-! ## Values and documents (the Mongo document model) -/

/-- A scalar value stored in a document: string, number (Python float as `ℚ`),
calendar date, datetime instant, null, or an embedded list of subject marks
(used by marksheet documents). -/
inductive Val where
  | str : String → Val
  | num : ℚ → Val
  | date : ℤ → Val
  | dt : ℤ → Val
  | null : Val
  | subjList : List (String × ℚ × ℚ) → Val
deriving DecidableEq, Repr

/-- A document: an ordered key/value record (a Python dict / bson document). -/
abbrev Doc := List (String × Val)

/-- Dict lookup: value at the first occurrence of key `k`, or `none`. -/
def getField : Doc → String → Option Val
  | [], _ => none
  | (k', v) :: rest, k => if k' = k then some v else getField rest k

/-- Dict assignment `d[k] = v`: replace the value in place if the key exists,
otherwise append the new key at the end (Python dict semantics). -/
def setField : Doc → String → Val → Doc
  | [], k, v => [(k, v)]
  | (k', w) :: rest, k, v =>
      if k' = k then (k, v) :: rest else (k', w) :: setField rest k v

/-- Dict `d.pop(k)`: the document with the first occurrence of key `k` removed. -/
def popField : Doc → String → Doc
  | [], _ => []
  | (k', v) :: rest, k => if k' = k then rest else (k', v) :: popField rest k

/-! ## schemas.py — pydantic models -/

/-- `schemas.SubjectMark`: name, marks (`ge=0`), max_marks (`gt=0`). -/
structure SubjectMark where
  name : String
  marks : ℚ
  max_marks : ℚ
deriving DecidableEq, Repr

/-- The pydantic field constraints on `SubjectMark`: `marks ≥ 0`, `max_marks > 0`. -/
def SubjectMark.Valid (s : SubjectMark) : Prop := 0 ≤ s.marks ∧ 0 < s.max_marks

instance (s : SubjectMark) : Decidable s.Valid := by unfold SubjectMark.Valid; infer_instance

/-- `schemas.Student`: required full_name/roll_no/class_name, optional rest. -/
structure Student where
  full_name : String
  roll_no : String
  class_name : String
  «section» : Option String := none
  dob : Option ℤ := none
  guardian_name : Option String := none
  contact : Option String := none
  address : Option String := none
deriving DecidableEq, Repr

/-- `schemas.Marksheet`: required identification fields plus the subjects list;
the derived fields (`total_obtained`, `total_max`, `percentage`, `grade`,
`remarks`) are optional. -/
structure Marksheet where
  student_id : String
  exam_name : String
  class_name : String
  year : ℤ
  subjects : List SubjectMark
  total_obtained : Option ℚ := none
  total_max : Option ℚ := none
  percentage : Option ℚ := none
  grade : Option String := none
  remarks : Option String := none
deriving DecidableEq, Repr

/-- Helper for optional pydantic bounds: `none` passes, `some q` must satisfy `0 ≤ q`. -/
def optNonneg : Option ℚ → Prop
  | none => True
  | some q => 0 ≤ q

instance : ∀ o, Decidable (optNonneg o)
  | none => inferInstanceAs (Decidable True)
  | some q => inferInstanceAs (Decidable (0 ≤ q))

/-- Helper for the optional percentage bound: `none` passes, `some q` must
satisfy `0 ≤ q ≤ 100` (pydantic `ge=0, le=100`). -/
def optPercentageRange : Option ℚ → Prop
  | none => True
  | some q => 0 ≤ q ∧ q ≤ 100

instance : ∀ o, Decidable (optPercentageRange o)
  | none => inferInstanceAs (Decidable True)
  | some q => inferInstanceAs (Decidable (0 ≤ q ∧ q ≤ 100))

/-- The pydantic field constraints on `Marksheet`: `year ∈ [1900, 3000]`,
every subject valid, `total_obtained ≥ 0`, `total_max ≥ 0`,
`percentage ∈ [0, 100]` (each bound applying only when the field is set). -/
def Marksheet.Valid (m : Marksheet) : Prop :=
  1900 ≤ m.year ∧ m.year ≤ 3000 ∧
  (∀ s ∈ m.subjects, s.Valid) ∧
  optNonneg m.total_obtained ∧ optNonneg m.total_max ∧
  optPercentageRange m.percentage

instance (m : Marksheet) : Decidable m.Valid := by unfold Marksheet.Valid; infer_instance

/-- `schemas.AdmitCard`. -/
structure AdmitCard where
  student_id : String
  roll_no : String
  class_name : String
  exam_name : String
  exam_date : Option ℤ := none
  center : Option String := none
  issued_on : Option ℤ := none
deriving DecidableEq, Repr

/-- `schemas.Attendance` after validation: `status` is guaranteed to be one of
the three literal strings. -/
structure Attendance where
  student_id : String
  date : ℤ
  status : String
  remarks : Option String := none
deriving DecidableEq, Repr

/-- The raw (pre-validation) attendance request body: `status` is an arbitrary
string that pydantic's `Literal['Present','Absent','Late']` check will vet. -/
structure AttendanceInput where
  student_id : String
  date : ℤ
  status : String
  remarks : Option String := none
deriving DecidableEq, Repr

/-- The pydantic `Literal['Present','Absent','Late']` membership test
(exact, case-sensitive string comparison). -/
def validStatus (s : String) : Bool :=
  s = "Present" || s = "Absent" || s = "Late"

/-! ## model_dump: pydantic model → plain document -/

/-- An optional string field serialized into a document (`None` ↦ null). -/
def optStr : Option String → Val
  | some s => .str s
  | none => .null

/-- An optional number field serialized into a document (`None` ↦ null). -/
def optNum : Option ℚ → Val
  | some q => .num q
  | none => .null

/-- An optional date field serialized into a document (`None` ↦ null). -/
def optDate : Option ℤ → Val
  | some d => .date d
  | none => .null

/-- `Student.model_dump()`: fields in declaration order. -/
def Student.toDoc (s : Student) : Doc :=
  [("full_name", .str s.full_name), ("roll_no", .str s.roll_no),
   ("class_name", .str s.class_name), ("section", optStr s.«section»),
   ("dob", optDate s.dob), ("guardian_name", optStr s.guardian_name),
   ("contact", optStr s.contact), ("address", optStr s.address)]

/-- `Marksheet.model_dump()`: fields in declaration order; the subjects list
is embedded as (name, marks, max_marks) triples. -/
def Marksheet.toDoc (m : Marksheet) : Doc :=
  [("student_id", .str m.student_id), ("exam_name", .str m.exam_name),
   ("class_name", .str m.class_name), ("year", .num (m.year : ℚ)),
   ("subjects", .subjList (m.subjects.map fun s => (s.name, s.marks, s.max_marks))),
   ("total_obtained", optNum m.total_obtained), ("total_max", optNum m.total_max),
   ("percentage", optNum m.percentage), ("grade", optStr m.grade),
   ("remarks", optStr m.remarks)]

/-- `AdmitCard.model_dump()`. -/
def AdmitCard.toDoc (c : AdmitCard) : Doc :=
  [("student_id", .str c.student_id), ("roll_no", .str c.roll_no),
   ("class_name", .str c.class_name), ("exam_name", .str c.exam_name),
   ("exam_date", optDate c.exam_date), ("center", optStr c.center),
   ("issued_on", optDate c.issued_on)]

/-- `Attendance.model_dump()`. -/
def Attendance.toDoc (a : Attendance) : Doc :=
  [("student_id", .str a.student_id), ("date", .date a.date),
   ("status", .str a.status), ("remarks", optStr a.remarks)]

/-! ## main.py — marksheet grading (`create_marksheet`, lines 105–120) -/

/-- The grade conditional of `create_marksheet`:
`"A+" if percentage >= 90 else "A" if percentage >= 80 else ...` -/
def gradeOf (percentage : ℚ) : String :=
  if percentage ≥ 90 then "A+"
  else if percentage ≥ 80 then "A"
  else if percentage ≥ 70 then "B"
  else if percentage ≥ 60 then "C"
  else if percentage ≥ 50 then "D"
  else "E"

/-- Python's `round(x)` to an integer: round half to even (banker's rounding). -/
def roundHalfEven (x : ℚ) : ℤ :=
  if x - ⌊x⌋ < 1/2 then ⌊x⌋
  else if 1/2 < x - ⌊x⌋ then ⌊x⌋ + 1
  else if ⌊x⌋ % 2 = 0 then ⌊x⌋ else ⌊x⌋ + 1

/-- Python's `round(x, 2)`: round to two decimal places, half to even. -/
def round2 (x : ℚ) : ℚ := (roundHalfEven (x * 100) : ℚ) / 100

/-- The body of `create_marksheet` before persistence (main.py lines 105–120):
when the subjects list is non-empty (Python truthiness of `sheet.subjects`),
compute the totals, the percentage (guarding `total_max = 0`), round the
percentage to two decimals, pick the grade from the *unrounded* percentage,
and overwrite the four derived fields; otherwise leave the sheet untouched. -/
def create_marksheet_process (sheet : Marksheet) : Marksheet :=
  if sheet.subjects = [] then sheet
  else
    let total_obt := (sheet.subjects.map SubjectMark.marks).sum
    let total_max := (sheet.subjects.map SubjectMark.max_marks).sum
    let percentage := if 0 < total_max then total_obt / total_max * 100 else 0
    let grade := gradeOf percentage
    { sheet with
      total_obtained := some total_obt
      total_max := some total_max
      percentage := some (round2 percentage)
      grade := some grade }

/-! ## database.py — the document access layer -/

/-- A Mongo equality filter applied to one document: every `(field, value)`
pair of the filter must match the document exactly. -/
def matchesFilter (filter : Doc) (d : Doc) : Bool :=
  filter.all fun p => decide (getField d p.1 = some p.2)

/-- `collection.find_one(filter)`: the first matching document, if any. -/
def find_one (coll : List Doc) (filter : Doc) : Option Doc :=
  (coll.filter (matchesFilter filter)).head?

/-- `database.create_document(collection, data)` applied to an already
normalized record `data` (`model_dump` has happened, or the caller passed a
plain dict). The two clock reads `datetime.now(timezone.utc)` are passed in
as `t1` (for `created_at`) and `t2` (for `updated_at`) — the source reads the
clock twice, once per field. `newId` is the ObjectId Mongo generates at
insert; Mongo places it first in the stored document. Returns
`str(result.inserted_id)` and the collection after the insert. -/
def create_document (coll : List Doc) (data : Doc) (t1 t2 : ℤ) (newId : String) :
    String × List Doc :=
  let data_dict := setField (setField data "created_at" (.dt t1)) "updated_at" (.dt t2)
  let stored := ("_id", Val.str newId) :: data_dict
  (newId, coll ++ [stored])

/-- `database.get_documents(collection, filter_dict, limit)`:
`filter_dict or {}` turns an absent filter into the empty filter; `if limit:`
is Python truthiness, so `limit = 0` means no cap. -/
def get_documents (coll : List Doc) (filter_dict : Option Doc) (limit : Option Nat) :
    List Doc :=
  let f := match filter_dict with
    | some q => q
    | none => []
  let r := coll.filter (matchesFilter f)
  match limit with
  | some n => if n ≠ 0 then r.take n else r
  | none => r

/-! ## database.py — `create_document` with the heap made explicit

`create_document` receives a reference to the caller's dict and runs
`data_dict = dict(data)`, which allocates a *fresh* dict with the same
contents; the two timestamp assignments then mutate only that fresh dict.
To state the frame property we model the heap as a list of documents indexed
by position; `dict(data)` allocates at the end of the heap. -/

/-- `create_document` over an explicit heap: `r` is the caller's reference to
the input record. Returns the heap after the call, the stored document, and
the new ID; `none` if the reference is dangling. -/
def create_document_heap (heap : List Doc) (coll : List Doc) (r : Nat)
    (t1 t2 : ℤ) (newId : String) : Option (List Doc × List Doc × Doc × String) :=
  match heap[r]? with
  | none => none
  | some data =>
    -- data_dict = dict(data): fresh allocation at index heap.length
    let heap1 := heap ++ [data]
    -- the two assignments mutate the fresh cell only
    let data_dict := setField (setField data "created_at" (.dt t1)) "updated_at" (.dt t2)
    let heap2 := heap1.set heap.length data_dict
    let stored := ("_id", Val.str newId) :: data_dict
    some (heap2, coll ++ [stored], stored, newId)

/-! ## main.py — application state, errors, and handlers -/

/-- The collections of a configured store, one per entity
(collection name = lowercase entity name). -/
structure DBState where
  student : List Doc := []
  marksheet : List Doc := []
  admitcard : List Doc := []
  attendance : List Doc := []
deriving DecidableEq, Repr

/-- A FastAPI `HTTPException`: status code and detail message. -/
structure HErr where
  status_code : Nat
  detail : String
deriving DecidableEq, Repr

/-- The 503 raised by `ensure_db_available` when the store is unconfigured. -/
def dbNotConfigured : HErr :=
  ⟨503, "Database not configured. Set DATABASE_URL and DATABASE_NAME."⟩

/-- The 409 the source constructs for a duplicate roll number (main.py line
67). Unreachable: the pre-check line above it truth-tests the pymongo
Database and raises first (see `truthTestingError`). -/
def rollConflict : HErr := ⟨409, "Roll number already exists"⟩

/-- The 500 FastAPI returns when the unhandled exception from main.py line 65
escapes `create_student`: the conditional expression
`db["student"].find_one({...}) if db else None` evaluates `bool(db)`, and
pymongo's `Database.__bool__` raises `NotImplementedError` ("Database objects
do not implement truth value testing or bool()..."). -/
def truthTestingError : HErr :=
  ⟨500, "NotImplementedError: Database objects do not implement truth value testing or bool(). Please compare with None instead: database is not None"⟩

/-- The 404 raised by `get_student` when no document matches. -/
def studentNotFound : HErr := ⟨404, "Student not found"⟩

/-- The 422 produced by FastAPI when pydantic validation rejects the body
(detail message abstracted). -/
def validationFailed : HErr := ⟨422, "value is not a permitted literal"⟩

/-- `d["id"] = str(d.pop("_id"))` as performed by the list handlers, and by
`get_student` under its `"_id" in doc` guard: remove the store-generated
`_id` and append its value under the public key `id`. -/
def rename_id (d : Doc) : Doc :=
  match getField d "_id" with
  | some v => popField d "_id" ++ [("id", v)]
  | none => d

/-- One `if param: query[key] = param` step of the list handlers: Python
string truthiness, so `None` and `""` both leave the query unchanged. -/
def addFilter (q : Doc) (k : String) (v : Option String) : Doc :=
  match v with
  | some s => if s ≠ "" then q ++ [(k, Val.str s)] else q
  | none => q

/-- `GET /` (`read_root`). -/
def read_root : List (String × String) := [("message", "School Helper Backend running")]

/-- The response shape of `GET /test`. -/
structure TestResponse where
  backend : String
  database : String
  database_url : String
  database_name : String
  connection_status : String
  collections : List String
deriving DecidableEq, Repr

/-- `GET /test` (`test_database`). `url`/`dbname` are the environment values
(`os.getenv`, `none` when unset; Python truthiness makes `""` count as
unset). `listCollNames` is the outcome of `db.list_collection_names()` when
a handle exists: `ok` with the names, or `error` with the exception text. -/
def test_database (url dbname : Option String) (db : Option DBState)
    (listCollNames : Except String (List String)) : TestResponse :=
  let base : TestResponse :=
    { backend := "✅ Running"
      database := "❌ Not Available"
      database_url := if (match url with | some s => s != "" | none => false)
                      then "✅ Set" else "❌ Not Set"
      database_name := match dbname with
        | some s => if s ≠ "" then s else "❌ Not Set"
        | none => "❌ Not Set"
      connection_status := "Not Connected"
      collections := [] }
  match db with
  | some _ =>
    let base := { base with database := "✅ Available", connection_status := "Connected" }
    match listCollNames with
    | .ok cols =>
        { base with collections := cols.take 10, database := "✅ Connected & Working" }
    | .error e =>
        { base with database := "⚠️  Connected but Error: " ++ e.take 50 }
  | none => base

/-- `POST /students` (`create_student`): 503 when unconfigured. When the
store is configured, line 65 —
`exists = db["student"].find_one({"roll_no": student.roll_no}) if db else None`
— first evaluates `bool(db)`, and pymongo's Database raises
`NotImplementedError` on truth testing, so the handler dies with a 500 before
the `find_one` pre-check ever runs; the duplicate-roll 409 and the insert
below it are unreachable, and the store is left untouched. The pair carries
the store after the call. -/
def create_student (db : Option DBState) (s : Student) (t1 t2 : ℤ)
    (newId : String) : Except HErr String × Option DBState :=
  match db with
  | none => (.error dbNotConfigured, none)
  | some st => (.error truthTestingError, some st)

/-- `GET /students` (`list_students`). -/
def list_students (db : Option DBState) (class_name «section» : Option String) :
    Except HErr (List Doc) :=
  match db with
  | none => .error dbNotConfigured
  | some st =>
    let query := addFilter (addFilter [] "class_name" class_name) "section" «section»
    .ok ((get_documents st.student (some query) none).map rename_id)

/-- `GET /students/{student_id}` (`get_student`): try the ObjectId lookup,
falling back to a plain `id`-field lookup when `ObjectId(student_id)` does
not parse (`oidParses = false`); 404 when nothing matches. -/
def get_student (db : Option DBState) (student_id : String) (oidParses : Bool) :
    Except HErr Doc :=
  match db with
  | none => .error dbNotConfigured
  | some st =>
    let doc := if oidParses then find_one st.student [("_id", Val.str student_id)]
               else find_one st.student [("id", Val.str student_id)]
    match doc with
    | none => .error studentNotFound
    | some d => .ok (rename_id d)

/-- `POST /marksheets` (`create_marksheet`): 503 when unconfigured; otherwise
run the grading computation and persist the processed sheet. -/
def create_marksheet (db : Option DBState) (sheet : Marksheet) (t1 t2 : ℤ)
    (newId : String) : Except HErr String × Option DBState :=
  match db with
  | none => (.error dbNotConfigured, none)
  | some st =>
    let sheet' := create_marksheet_process sheet
    let (id, coll') := create_document st.marksheet sheet'.toDoc t1 t2 newId
    (.ok id, some { st with marksheet := coll' })

/-- `GET /marksheets` (`list_marksheets`). -/
def list_marksheets (db : Option DBState) (student_id exam_name : Option String) :
    Except HErr (List Doc) :=
  match db with
  | none => .error dbNotConfigured
  | some st =>
    let q := addFilter (addFilter [] "student_id" student_id) "exam_name" exam_name
    .ok ((get_documents st.marksheet (some q) none).map rename_id)

/-- `POST /admit-cards` (`create_admit_card`). -/
def create_admit_card (db : Option DBState) (card : AdmitCard) (t1 t2 : ℤ)
    (newId : String) : Except HErr String × Option DBState :=
  match db with
  | none => (.error dbNotConfigured, none)
  | some st =>
    let (id, coll') := create_document st.admitcard card.toDoc t1 t2 newId
    (.ok id, some { st with admitcard := coll' })

/-- `GET /admit-cards` (`list_admit_cards`). -/
def list_admit_cards (db : Option DBState) (student_id exam_name : Option String) :
    Except HErr (List Doc) :=
  match db with
  | none => .error dbNotConfigured
  | some st =>
    let q := addFilter (addFilter [] "student_id" student_id) "exam_name" exam_name
    .ok ((get_documents st.admitcard (some q) none).map rename_id)

/-- `POST /attendance` (`mark_attendance`): the handler body, reached only
with a validated record. -/
def mark_attendance (db : Option DBState) (record : Attendance) (t1 t2 : ℤ)
    (newId : String) : Except HErr String × Option DBState :=
  match db with
  | none => (.error dbNotConfigured, none)
  | some st =>
    let (id, coll') := create_document st.attendance record.toDoc t1 t2 newId
    (.ok id, some { st with attendance := coll' })

/-- The pydantic validation FastAPI runs on the request body before
`mark_attendance` is entered: the `Literal` check on `status`. -/
def parse_attendance (inp : AttendanceInput) : Except HErr Attendance :=
  if validStatus inp.status then
    .ok ⟨inp.student_id, inp.date, inp.status, inp.remarks⟩
  else .error validationFailed

/-- The full `POST /attendance` pipeline: framework validation first (a 422
leaves the store untouched — the handler is never entered), then the handler. -/
def post_attendance (db : Option DBState) (inp : AttendanceInput) (t1 t2 : ℤ)
    (newId : String) : Except HErr String × Option DBState :=
  match parse_attendance inp with
  | .error e => (.error e, db)
  | .ok record => mark_attendance db record t1 t2 newId

/-- `GET /attendance` (`list_attendance`). -/
def list_attendance (db : Option DBState) (student_id date status : Option String) :
    Except HErr (List Doc) :=
  match db with
  | none => .error dbNotConfigured
  | some st =>
    let q := addFilter (addFilter (addFilter [] "student_id" student_id) "date" date)
      "status" status
    .ok ((get_documents st.attendance (some q) none).map rename_id)

/-- Modelled from the spec: "each filter narrows results to exact-match
subset", "equality-conjunction filter, omitting unset filters" — one optional
filter parameter matched against one document (per the amendment, a parameter
supplied as the empty string is treated as unset). -/
def matchParam (d : Doc) (k : String) (v : Option String) : Bool :=
  match v with
  | none => true
  | some s => if s = "" then true else decide (getField d k = some (Val.str s))

/-! ## Helper lemmas on documents -/

theorem getField_setField_self (d : Doc) (k : String) (v : Val) :
    getField (setField d k v) k = some v := by
  induction d with
  | nil => simp [setField, getField]
  | cons hd tl ih =>
    obtain ⟨k', w⟩ := hd
    by_cases h : k' = k <;> simp [setField, getField, h, ih]

theorem getField_setField_ne (d : Doc) (k k' : String) (v : Val) (h : k' ≠ k) :
    getField (setField d k v) k' = getField d k' := by
  induction d with
  | nil => simp [setField, getField, Ne.symm h]
  | cons hd tl ih =>
    obtain ⟨k'', w⟩ := hd
    by_cases hk : k'' = k
    · subst hk
      simp [setField, getField, Ne.symm h]
    · simp [setField, getField, hk, ih]

theorem matchesFilter_append (q₁ q₂ : Doc) (d : Doc) :
    matchesFilter (q₁ ++ q₂) d = (matchesFilter q₁ d && matchesFilter q₂ d) := by
  simp [matchesFilter, List.all_append]

theorem matchesFilter_nil (d : Doc) : matchesFilter [] d = true := rfl

/-- The grading branch of `create_marksheet` is skipped on an empty subjects
list (Python truthiness of `sheet.subjects`). -/
theorem create_marksheet_process_of_empty (m : Marksheet) (h : m.subjects = []) :
    create_marksheet_process m = m := by
  simp [create_marksheet_process, h]

/-- One list-handler filter step agrees with the spec-side single-parameter
matcher: appending the `if param:` contribution to the query conjoins the
`matchParam` test. -/
theorem matchesFilter_addFilter (q : Doc) (k : String) (v : Option String) (d : Doc) :
    matchesFilter (addFilter q k v) d = (matchesFilter q d && matchParam d k v) := by
  cases v with
  | none => simp [addFilter, matchParam]
  | some s =>
    by_cases hs : s = ""
    · simp [addFilter, matchParam, hs]
    · simp [addFilter, matchParam, hs, matchesFilter_append, matchesFilter]

/-! ## C1 — marksheet grading -/

/-- A valid creation request whose raw percentage is 89.996: the stored
percentage rounds up to exactly 90.00 while the grade, computed from the raw
value, is "A". -/
def gradingCexSheet : Marksheet :=
  { student_id := "stu-1", exam_name := "Final", class_name := "10",
    year := 2024, subjects := [⟨"Maths", 22499/250, 100⟩] }

/-- C1 (counterexample): for the valid non-empty request `gradingCexSheet`
(total_max = 100 > 0), the stored percentage is exactly 90.00 but the stored
grade is "A", not the "A+" the claim's band table assigns to a percentage of
exactly 90.00 — the code grades the raw percentage (89.996) before rounding. -/
theorem marksheet_grade_rounded_cex :
    gradingCexSheet.Valid ∧
    gradingCexSheet.subjects ≠ [] ∧
    (gradingCexSheet.subjects.map SubjectMark.max_marks).sum = 100 ∧
    (create_marksheet_process gradingCexSheet).percentage = some 90 ∧
    (create_marksheet_process gradingCexSheet).grade = some "A" ∧
    gradeOf 90 = "A+" ∧
    some "A" ≠ some ("A+" : String) := by
  refine ⟨?_, ?_, ?_, ?_, ?_, ?_, ?_⟩
  · constructor
    · norm_num [gradingCexSheet]
    refine ⟨by norm_num [gradingCexSheet], ?_, trivial, trivial, trivial⟩
    intro s hs
    simp only [gradingCexSheet, List.mem_singleton] at hs
    subst hs
    constructor <;> norm_num [SubjectMark.Valid]
  · simp [gradingCexSheet]
  · norm_num [gradingCexSheet]
  · norm_num [create_marksheet_process, gradingCexSheet, round2, roundHalfEven]
  · norm_num [create_marksheet_process, gradingCexSheet, gradeOf]
  · norm_num [gradeOf]
  · simp

/-- C1 (amended): for every valid marksheet creation request with a non-empty
subjects list, the total max is positive, the stored percentage is the raw
percentage `sum(marks) / sum(max_marks) * 100` rounded to two decimals, and
the stored grade is the band letter of the *unrounded* raw percentage, with
ties at a band boundary of the raw percentage going to the higher band
(raw 90 → "A+", raw 89.99 → "A", raw 50 → "D", raw 49.99 → "E"). -/
theorem marksheet_grade_unrounded (m : Marksheet) (hv : m.Valid)
    (hne : m.subjects ≠ []) :
    0 < (m.subjects.map SubjectMark.max_marks).sum ∧
    (create_marksheet_process m).percentage =
      some (round2 ((m.subjects.map SubjectMark.marks).sum /
        (m.subjects.map SubjectMark.max_marks).sum * 100)) ∧
    (create_marksheet_process m).grade =
      some (gradeOf ((m.subjects.map SubjectMark.marks).sum /
        (m.subjects.map SubjectMark.max_marks).sum * 100)) ∧
    gradeOf 90 = "A+" ∧ gradeOf (8999/100) = "A" ∧
    gradeOf 50 = "D" ∧ gradeOf (4999/100) = "E" := by
  have hpos : 0 < (m.subjects.map SubjectMark.max_marks).sum := by
    apply List.sum_pos
    · intro a ha
      obtain ⟨s, hs, rfl⟩ := List.mem_map.mp ha
      exact (hv.2.2.1 s hs).2
    · simpa [List.map_eq_nil_iff] using hne
  refine ⟨hpos, ?_, ?_, ?_, ?_, ?_, ?_⟩
  · simp [create_marksheet_process, hne, hpos]
  · simp [create_marksheet_process, hne, hpos]
  · norm_num [gradeOf]
  · norm_num [gradeOf]
  · norm_num [gradeOf]
  · norm_num [gradeOf]

/-- The spec's own scenario: Math 45/50 and Sci 40/50. -/
def gradingWitnessSheet : Marksheet :=
  { student_id := "stu-2", exam_name := "Half-Yearly", class_name := "10",
    year := 2024, subjects := [⟨"Math", 45, 50⟩, ⟨"Sci", 40, 50⟩] }

/-- C1 (witness): on the spec's scenario the amended theorem yields stored
percentage 85.00 and grade "A". -/
theorem marksheet_grade_unrounded_witness :
    gradingWitnessSheet.Valid ∧ gradingWitnessSheet.subjects ≠ [] ∧
    (create_marksheet_process gradingWitnessSheet).percentage = some 85 ∧
    (create_marksheet_process gradingWitnessSheet).grade = some "A" := by
  have hv : gradingWitnessSheet.Valid := by
    constructor
    · norm_num [gradingWitnessSheet]
    refine ⟨by norm_num [gradingWitnessSheet], ?_, trivial, trivial, trivial⟩
    intro s hs
    simp only [gradingWitnessSheet, List.mem_cons, List.mem_singleton,
      List.not_mem_nil, or_false] at hs
    rcases hs with rfl | rfl <;> constructor <;> norm_num [SubjectMark.Valid]
  have hne : gradingWitnessSheet.subjects ≠ [] := by simp [gradingWitnessSheet]
  obtain ⟨hpos, hp, hg, _⟩ := marksheet_grade_unrounded gradingWitnessSheet hv hne
  refine ⟨hv, hne, ?_, ?_⟩
  · rw [hp]
    norm_num [gradingWitnessSheet, round2, roundHalfEven]
  · rw [hg]
    norm_num [gradingWitnessSheet, gradeOf]

/-! ## C2 — server-computed fields overwrite caller input -/

/-- A creation request with non-empty subjects and caller-supplied remarks. -/
def overwriteCexA : Marksheet :=
  { student_id := "stu-3", exam_name := "Final", class_name := "9",
    year := 2024, subjects := [⟨"Math", 45, 50⟩], remarks := some "Good" }

/-- The same request with the remarks removed. -/
def overwriteCexB : Marksheet :=
  { student_id := "stu-3", exam_name := "Final", class_name := "9",
    year := 2024, subjects := [⟨"Math", 45, 50⟩], remarks := none }

/-- A request with an empty subjects list and a caller-supplied percentage. -/
def overwriteCexC : Marksheet :=
  { student_id := "stu-4", exam_name := "Final", class_name := "9",
    year := 2024, subjects := [], percentage := some 10 }

/-- C2 (counterexample): two requests with identical subjects but different
caller-supplied remarks persist different remarks — remarks is never
server-computed, the caller's value reaches the store.  And with an empty
subjects list the caller-supplied percentage (here 10) reaches the store
untouched. -/
theorem marksheet_server_overwrite_cex :
    overwriteCexA.subjects = overwriteCexB.subjects ∧
    (create_marksheet_process overwriteCexA).remarks = some "Good" ∧
    (create_marksheet_process overwriteCexB).remarks = none ∧
    (create_marksheet_process overwriteCexA).remarks ≠
      (create_marksheet_process overwriteCexB).remarks ∧
    overwriteCexC.subjects = [] ∧
    (create_marksheet_process overwriteCexC).percentage = some 10 := by
  refine ⟨rfl, ?_, ?_, ?_, rfl, ?_⟩
  · simp [create_marksheet_process, overwriteCexA]
  · simp [create_marksheet_process, overwriteCexB]
  · simp [create_marksheet_process, overwriteCexA, overwriteCexB]
  · simp [create_marksheet_process, overwriteCexC]

/-- C2 (amended): for every marksheet creation request with a non-empty
subjects list, the persisted total_obtained, total_max, percentage and grade
equal the server-computed values derived from the subjects alone (so any
caller-supplied values for those four fields are overwritten); remarks always
passes through from the caller, and with an empty subjects list no field is
overwritten at all. -/
theorem marksheet_server_overwrite (m : Marksheet) :
    (m.subjects ≠ [] →
      (create_marksheet_process m).total_obtained =
        some ((m.subjects.map SubjectMark.marks).sum) ∧
      (create_marksheet_process m).total_max =
        some ((m.subjects.map SubjectMark.max_marks).sum) ∧
      (create_marksheet_process m).percentage =
        some (round2 (if 0 < (m.subjects.map SubjectMark.max_marks).sum then
          (m.subjects.map SubjectMark.marks).sum /
            (m.subjects.map SubjectMark.max_marks).sum * 100 else 0)) ∧
      (create_marksheet_process m).grade =
        some (gradeOf (if 0 < (m.subjects.map SubjectMark.max_marks).sum then
          (m.subjects.map SubjectMark.marks).sum /
            (m.subjects.map SubjectMark.max_marks).sum * 100 else 0))) ∧
    (create_marksheet_process m).remarks = m.remarks ∧
    (m.subjects = [] → create_marksheet_process m = m) := by
  by_cases h : m.subjects = [] <;>
    simp [create_marksheet_process, h]

/-- A request supplying bogus caller values for all four derived fields. -/
def serverOverwriteWitnessSheet : Marksheet :=
  { student_id := "stu-5", exam_name := "Unit Test", class_name := "6",
    year := 2023, subjects := [⟨"Eng", 30, 40⟩],
    total_obtained := some 1, total_max := some 2, percentage := some 3,
    grade := some "Z", remarks := some "keep me" }

/-- C2 (witness): the bogus caller-supplied derived fields are all replaced by
the server-computed values (30, 40, 75.00, "B") while remarks passes through. -/
theorem marksheet_server_overwrite_witness :
    (create_marksheet_process serverOverwriteWitnessSheet).total_obtained = some 30 ∧
    (create_marksheet_process serverOverwriteWitnessSheet).total_max = some 40 ∧
    (create_marksheet_process serverOverwriteWitnessSheet).percentage = some 75 ∧
    (create_marksheet_process serverOverwriteWitnessSheet).grade = some "B" ∧
    (create_marksheet_process serverOverwriteWitnessSheet).remarks = some "keep me" := by
  obtain ⟨h1, h2, -⟩ := marksheet_server_overwrite serverOverwriteWitnessSheet
  obtain ⟨ho, hm, hp, hg⟩ := h1 (by simp [serverOverwriteWitnessSheet])
  refine ⟨?_, ?_, ?_, ?_, ?_⟩
  · rw [ho]; norm_num [serverOverwriteWitnessSheet]
  · rw [hm]; norm_num [serverOverwriteWitnessSheet]
  · rw [hp]; norm_num [serverOverwriteWitnessSheet, round2, roundHalfEven]
  · rw [hg]; norm_num [serverOverwriteWitnessSheet, gradeOf]
  · rw [h2]; rfl

/-! ## C3 — empty subjects list -/

/-- A valid creation request with an empty subjects list and a caller-supplied
percentage of 37.5. -/
def emptySubjectsCexSheet : Marksheet :=
  { student_id := "stu-6", exam_name := "Mid", class_name := "7",
    year := 2024, subjects := [], percentage := some (75/2) }

/-- C3 (counterexample): with an empty subjects list the grading branch is
skipped entirely — the stored percentage is the caller's 37.5 (not 0) and no
total_max is computed or stored (it stays `none`, not 0). -/
theorem marksheet_empty_subjects_cex :
    emptySubjectsCexSheet.Valid ∧
    emptySubjectsCexSheet.subjects = [] ∧
    (create_marksheet_process emptySubjectsCexSheet).percentage = some (75/2) ∧
    (75/2 : ℚ) ≠ 0 ∧
    (create_marksheet_process emptySubjectsCexSheet).total_max = none := by
  refine ⟨?_, rfl, ?_, by norm_num, ?_⟩
  · refine ⟨by norm_num [emptySubjectsCexSheet], by norm_num [emptySubjectsCexSheet],
      ?_, trivial, trivial, ?_⟩
    · intro s hs
      simp [emptySubjectsCexSheet] at hs
    · constructor <;> norm_num [emptySubjectsCexSheet, optPercentageRange]
  · simp [create_marksheet_process, emptySubjectsCexSheet]
  · simp [create_marksheet_process, emptySubjectsCexSheet]

/-- C3 (amended): a marksheet created with an empty subjects list is persisted
exactly as submitted — the grading branch never runs, so no totals are
computed, the stored percentage is the caller-supplied value, and no division
happens at all (in particular no division by zero). -/
theorem marksheet_empty_subjects_passthrough (m : Marksheet)
    (h : m.subjects = []) : create_marksheet_process m = m :=
  create_marksheet_process_of_empty m h

/-- C3 (witness): the pass-through theorem applied to the concrete empty
request. -/
theorem marksheet_empty_subjects_passthrough_witness :
    create_marksheet_process emptySubjectsCexSheet = emptySubjectsCexSheet :=
  marksheet_empty_subjects_passthrough emptySubjectsCexSheet rfl

/-! ## C4 — bounds on the persisted percentage -/

theorem roundHalfEven_le_of_le (x : ℚ) (B : ℤ) (h : x ≤ B) :
    roundHalfEven x ≤ B := by
  have hnB : ⌊x⌋ ≤ B := by
    have := Int.floor_le_floor h
    rwa [Int.floor_intCast] at this
  have hsucc : ¬(x - ⌊x⌋ < 1/2) → ⌊x⌋ + 1 ≤ B := by
    intro hr
    push_neg at hr
    have h1 : (⌊x⌋ : ℚ) + 1/2 ≤ x := by linarith
    have h2 : (⌊x⌋ : ℚ) < (B : ℚ) := by linarith
    exact Int.add_one_le_iff.mpr (by exact_mod_cast h2)
  unfold roundHalfEven
  split_ifs with h1 h2 h3
  · exact hnB
  · exact hsucc h1
  · exact hnB
  · exact hsucc h1

theorem le_roundHalfEven_of_le (B : ℤ) (x : ℚ) (h : (B : ℚ) ≤ x) :
    B ≤ roundHalfEven x := by
  have hnB : B ≤ ⌊x⌋ := Int.le_floor.mpr h
  unfold roundHalfEven
  split_ifs <;> omega

theorem round2_nonneg (x : ℚ) (h : 0 ≤ x) : 0 ≤ round2 x := by
  unfold round2
  have h1 : (0 : ℤ) ≤ roundHalfEven (x * 100) :=
    le_roundHalfEven_of_le 0 _ (by push_cast; linarith)
  have h2 : (0 : ℚ) ≤ (roundHalfEven (x * 100) : ℚ) := by exact_mod_cast h1
  linarith [div_nonneg h2 (by norm_num : (0:ℚ) ≤ 100)]

theorem round2_le_100 (x : ℚ) (h : x ≤ 100) : round2 x ≤ 100 := by
  unfold round2
  have h1 : roundHalfEven (x * 100) ≤ (10000 : ℤ) :=
    roundHalfEven_le_of_le _ _ (by push_cast; linarith)
  have h2 : (roundHalfEven (x * 100) : ℚ) ≤ 10000 := by exact_mod_cast h1
  rw [div_le_iff₀ (by norm_num : (0:ℚ) < 100)]
  linarith

/-- A valid creation request in which marks exceed max_marks (the schema only
requires `marks ≥ 0` and `max_marks > 0`). -/
def percentageCexSheet : Marksheet :=
  { student_id := "stu-7", exam_name := "Retest", class_name := "8",
    year := 2024, subjects := [⟨"Bio", 60, 50⟩] }

/-- C4 (counterexample): for the valid request with marks 60 out of 50, the
server computes and persists percentage 120, outside [0, 100] — the pydantic
`le=100` bound is not re-checked when the handler assigns the computed value. -/
theorem marksheet_percentage_over_100_cex :
    percentageCexSheet.Valid ∧
    (create_marksheet_process percentageCexSheet).percentage = some 120 ∧
    ¬((120 : ℚ) ≤ 100) := by
  refine ⟨?_, ?_, by norm_num⟩
  · refine ⟨by norm_num [percentageCexSheet], by norm_num [percentageCexSheet],
      ?_, trivial, trivial, trivial⟩
    intro s hs
    simp only [percentageCexSheet, List.mem_singleton] at hs
    subst hs
    constructor <;> norm_num [SubjectMark.Valid]
  · norm_num [create_marksheet_process, percentageCexSheet, round2, roundHalfEven]

/-- C4 (amended): for every valid creation request, a persisted percentage is
always ≥ 0; it is moreover ≤ 100 whenever the caller-supplied value survives
(empty subjects; the schema bound applies) or the server computes it from
subjects whose total marks do not exceed the total max marks.  When total
marks exceed total max marks the server-computed percentage exceeds 100. -/
theorem marksheet_percentage_bounds (m : Marksheet) (hv : m.Valid) :
    (∀ p, (create_marksheet_process m).percentage = some p → 0 ≤ p) ∧
    ((m.subjects.map SubjectMark.marks).sum ≤
        (m.subjects.map SubjectMark.max_marks).sum →
      ∀ p, (create_marksheet_process m).percentage = some p → p ≤ 100) := by
  by_cases hne : m.subjects = []
  · constructor
    · intro p hp
      rw [create_marksheet_process_of_empty m hne] at hp
      have h := hv.2.2.2.2.2
      rw [hp] at h
      exact h.1
    · intro _ p hp
      rw [create_marksheet_process_of_empty m hne] at hp
      have h := hv.2.2.2.2.2
      rw [hp] at h
      exact h.2
  · have hpos : 0 < (m.subjects.map SubjectMark.max_marks).sum := by
      apply List.sum_pos
      · intro a ha
        obtain ⟨s, hs, rfl⟩ := List.mem_map.mp ha
        exact (hv.2.2.1 s hs).2
      · simpa [List.map_eq_nil_iff] using hne
    have hobt : 0 ≤ (m.subjects.map SubjectMark.marks).sum := by
      apply List.sum_nonneg
      intro a ha
      obtain ⟨s, hs, rfl⟩ := List.mem_map.mp ha
      exact (hv.2.2.1 s hs).1
    have hper : (create_marksheet_process m).percentage =
        some (round2 ((m.subjects.map SubjectMark.marks).sum /
          (m.subjects.map SubjectMark.max_marks).sum * 100)) := by
      simp [create_marksheet_process, hne, hpos]
    constructor
    · intro p hp
      rw [hper] at hp
      obtain rfl : round2 _ = p := Option.some.inj hp
      exact round2_nonneg _ (by positivity)
    · intro hle p hp
      rw [hper] at hp
      obtain rfl : round2 _ = p := Option.some.inj hp
      apply round2_le_100
      have h1 : (m.subjects.map SubjectMark.marks).sum /
          (m.subjects.map SubjectMark.max_marks).sum ≤ 1 :=
        (div_le_one hpos).mpr hle
      linarith

/-- A valid request whose marks stay within the max marks. -/
def percentageWitnessSheet : Marksheet :=
  { student_id := "stu-8", exam_name := "Quarterly", class_name := "8",
    year := 2024, subjects := [⟨"Chem", 40, 50⟩] }

/-- C4 (witness): the bounds theorem at the concrete request 40/50 — the
persisted percentage 80.00 satisfies 0 ≤ 80 ≤ 100. -/
theorem marksheet_percentage_bounds_witness :
    (create_marksheet_process percentageWitnessSheet).percentage = some 80 ∧
    0 ≤ (80 : ℚ) ∧ (80 : ℚ) ≤ 100 := by
  have hv : percentageWitnessSheet.Valid := by
    refine ⟨by norm_num [percentageWitnessSheet], by norm_num [percentageWitnessSheet],
      ?_, trivial, trivial, trivial⟩
    intro s hs
    simp only [percentageWitnessSheet, List.mem_singleton] at hs
    subst hs
    constructor <;> norm_num [SubjectMark.Valid]
  have hper : (create_marksheet_process percentageWitnessSheet).percentage = some 80 := by
    norm_num [create_marksheet_process, percentageWitnessSheet, round2, roundHalfEven]
  obtain ⟨hlo, hhi⟩ := marksheet_percentage_bounds percentageWitnessSheet hv
  exact ⟨hper, hlo 80 hper,
    hhi (by norm_num [percentageWitnessSheet]) 80 hper⟩

/-! ## C5 — duplicate roll number -/

/-- A store already holding a student with roll number "1". -/
def conflictStore : DBState :=
  { student := [[("_id", Val.str "a1"), ("full_name", Val.str "A"),
      ("roll_no", Val.str "1"), ("class_name", Val.str "5")]] }

/-- A creation request reusing roll number "1" with every other field
different. -/
def conflictStudent : Student :=
  { full_name := "B", roll_no := "1", class_name := "6",
    «section» := some "C", guardian_name := some "G" }

/-- C5 (code bug): the duplicate-roll request against the store that already
holds roll number "1" fails with the truth-testing 500, not the 409 the claim
(and the spec, and main.py's own line 67) intends — `bool(db)` raises before
the `find_one` pre-check runs, and indeed every `create_student` call against
a configured store fails the same way, so the conflict path is unreachable;
the store is unchanged by the failed call either way. -/
theorem student_duplicate_roll_no_500 :
    (∃ d ∈ conflictStore.student,
      getField d "roll_no" = some (Val.str conflictStudent.roll_no)) ∧
    create_student (some conflictStore) conflictStudent 3 4 "a2" =
      (.error truthTestingError, some conflictStore) ∧
    truthTestingError.status_code = 500 ∧
    rollConflict.status_code = 409 ∧
    truthTestingError.status_code ≠ rollConflict.status_code ∧
    (∀ (st : DBState) (s : Student) (t1 t2 : ℤ) (id : String),
      create_student (some st) s t1 t2 id = (.error truthTestingError, some st)) := by
  refine ⟨?_, rfl, rfl, rfl, by decide, fun _ _ _ _ _ => rfl⟩
  exact ⟨[("_id", Val.str "a1"), ("full_name", Val.str "A"),
      ("roll_no", Val.str "1"), ("class_name", Val.str "5")],
    by simp [conflictStore], by simp [getField, conflictStudent]⟩

/-! ## C6 — unconfigured store -/

/-- C6: with no store handle (`db = none`), every create/list/get handler on
every entity fails with the 503 "not configured" error and no store state is
produced, while `GET /` still answers its liveness message and `GET /test`
reports the unconfigured state ("❌ Not Available" / "Not Connected", no
collections) with the backend itself running. -/
theorem unconfigured_db_all_endpoints :
    (∀ (s : Student) (t1 t2 : ℤ) (id : String),
      create_student none s t1 t2 id = (.error dbNotConfigured, none)) ∧
    (∀ cn sec, list_students none cn sec = .error dbNotConfigured) ∧
    (∀ sid b, get_student none sid b = .error dbNotConfigured) ∧
    (∀ (m : Marksheet) (t1 t2 : ℤ) (id : String),
      create_marksheet none m t1 t2 id = (.error dbNotConfigured, none)) ∧
    (∀ sid en, list_marksheets none sid en = .error dbNotConfigured) ∧
    (∀ (c : AdmitCard) (t1 t2 : ℤ) (id : String),
      create_admit_card none c t1 t2 id = (.error dbNotConfigured, none)) ∧
    (∀ sid en, list_admit_cards none sid en = .error dbNotConfigured) ∧
    (∀ (a : Attendance) (t1 t2 : ℤ) (id : String),
      mark_attendance none a t1 t2 id = (.error dbNotConfigured, none)) ∧
    (∀ sid dt stt, list_attendance none sid dt stt = .error dbNotConfigured) ∧
    dbNotConfigured.status_code = 503 ∧
    read_root = [("message", "School Helper Backend running")] ∧
    (∀ url dbname c,
      (test_database url dbname none c).backend = "✅ Running" ∧
      (test_database url dbname none c).database = "❌ Not Available" ∧
      (test_database url dbname none c).connection_status = "Not Connected" ∧
      (test_database url dbname none c).collections = []) :=
  ⟨fun _ _ _ _ => rfl, fun _ _ => rfl, fun _ _ => rfl, fun _ _ _ _ => rfl,
   fun _ _ => rfl, fun _ _ _ _ => rfl, fun _ _ => rfl, fun _ _ _ _ => rfl,
   fun _ _ _ => rfl, rfl, rfl, fun _ _ _ => ⟨rfl, rfl, rfl, rfl⟩⟩

/-! ## C7 — list endpoints and equality filters -/

/-- `get_documents` over a two-step handler-built query equals a direct
filter by the two per-parameter matchers. -/
theorem get_documents_filter2 (coll : List Doc) (k1 k2 : String)
    (v1 v2 : Option String) :
    get_documents coll (some (addFilter (addFilter [] k1 v1) k2 v2)) none =
      coll.filter fun d => matchParam d k1 v1 && matchParam d k2 v2 := by
  unfold get_documents
  apply List.filter_congr
  intro d _
  rw [matchesFilter_addFilter, matchesFilter_addFilter, matchesFilter_nil,
    Bool.true_and]

/-- `get_documents` over a three-step handler-built query equals a direct
filter by the three per-parameter matchers. -/
theorem get_documents_filter3 (coll : List Doc) (k1 k2 k3 : String)
    (v1 v2 v3 : Option String) :
    get_documents coll
        (some (addFilter (addFilter (addFilter [] k1 v1) k2 v2) k3 v3)) none =
      coll.filter fun d =>
        matchParam d k1 v1 && matchParam d k2 v2 && matchParam d k3 v3 := by
  unfold get_documents
  apply List.filter_congr
  intro d _
  rw [matchesFilter_addFilter, matchesFilter_addFilter, matchesFilter_addFilter,
    matchesFilter_nil, Bool.true_and]

/-- An attendance document whose status is "Present". -/
def cexAttendanceDoc : Doc :=
  [("_id", Val.str "att-1"), ("student_id", Val.str "s1"),
   ("date", Val.str "2024-01-01"), ("status", Val.str "Present")]

/-- A store holding only that attendance document. -/
def cexAttendanceStore : DBState := { attendance := [cexAttendanceDoc] }

/-- C7 (counterexample): a request supplying the status filter as the empty
string returns the stored document even though its status ("Present") does
not equal the supplied value "" — Python truthiness drops empty-string
filters, so a supplied empty filter does not narrow to equality matches. -/
theorem list_attendance_empty_string_cex :
    list_attendance (some cexAttendanceStore) none none (some "") =
      .ok [rename_id cexAttendanceDoc] ∧
    getField cexAttendanceDoc "status" = some (Val.str "Present") ∧
    some (Val.str "Present") ≠ some (Val.str "") := by
  refine ⟨rfl, rfl, by simp⟩

/-- C7 (amended): a list request with no filters returns every document of
the entity's collection (with `_id` renamed to `id`), and each supplied
*non-empty* filter parameter narrows the result to exactly the documents
whose field equals the supplied value, as an equality conjunction; a
parameter that is absent — or supplied as the empty string, which Python
truthiness treats as unset — is unconstrained. -/
theorem list_endpoints_filter_semantics :
    (∀ st, list_students (some st) none none = .ok (st.student.map rename_id)) ∧
    (∀ st, list_marksheets (some st) none none = .ok (st.marksheet.map rename_id)) ∧
    (∀ st, list_admit_cards (some st) none none = .ok (st.admitcard.map rename_id)) ∧
    (∀ st, list_attendance (some st) none none none =
      .ok (st.attendance.map rename_id)) ∧
    (∀ st cn sec, list_students (some st) cn sec =
      .ok ((st.student.filter fun d =>
        matchParam d "class_name" cn && matchParam d "section" sec).map rename_id)) ∧
    (∀ st sid en, list_marksheets (some st) sid en =
      .ok ((st.marksheet.filter fun d =>
        matchParam d "student_id" sid && matchParam d "exam_name" en).map rename_id)) ∧
    (∀ st sid en, list_admit_cards (some st) sid en =
      .ok ((st.admitcard.filter fun d =>
        matchParam d "student_id" sid && matchParam d "exam_name" en).map rename_id)) ∧
    (∀ st sid dt stt, list_attendance (some st) sid dt stt =
      .ok ((st.attendance.filter fun d =>
        matchParam d "student_id" sid && matchParam d "date" dt &&
          matchParam d "status" stt).map rename_id)) := by
  refine ⟨?_, ?_, ?_, ?_, ?_, ?_, ?_, ?_⟩
  · intro st
    simp [list_students, get_documents_filter2, matchParam]
  · intro st
    simp [list_marksheets, get_documents_filter2, matchParam]
  · intro st
    simp [list_admit_cards, get_documents_filter2, matchParam]
  · intro st
    simp [list_attendance, get_documents_filter3, matchParam]
  · intro st cn sec
    simp [list_students, get_documents_filter2]
  · intro st sid en
    simp [list_marksheets, get_documents_filter2]
  · intro st sid en
    simp [list_admit_cards, get_documents_filter2]
  · intro st sid dt stt
    simp [list_attendance, get_documents_filter3]

/-! ## C8 — attendance status validation -/

/-- C8: the status check accepts exactly the three literal strings, the
lowercase "present" is rejected, and a request failing the check yields the
422 validation error with the store left exactly as it was (the handler, and
hence the insert, is never reached). -/
theorem attendance_status_validation :
    (∀ s : String, validStatus s = true ↔
      (s = "Present" ∨ s = "Absent" ∨ s = "Late")) ∧
    validStatus "present" = false ∧
    (∀ (db : Option DBState) (inp : AttendanceInput) (t1 t2 : ℤ) (id : String),
      validStatus inp.status = false →
        post_attendance db inp t1 t2 id = (.error validationFailed, db)) ∧
    validationFailed.status_code = 422 := by
  refine ⟨?_, rfl, ?_, rfl⟩
  · intro s
    simp [validStatus, or_assoc]
  · intro db inp t1 t2 id h
    simp [post_attendance, parse_attendance, h]

/-- A request body with the lowercase status "present". -/
def invalidAttendanceInput : AttendanceInput :=
  { student_id := "s1", date := 20240101, status := "present" }

/-- A store with one attendance document, to watch stay unchanged. -/
def attendanceWitnessStore : DBState := { attendance := [[("_id", Val.str "b1")]] }

/-- C8 (witness): the validation theorem at the lowercase "present" request —
422 and the store untouched. -/
theorem attendance_status_validation_witness :
    validStatus "present" = false ∧
    post_attendance (some attendanceWitnessStore) invalidAttendanceInput 0 0 "b2" =
      (.error validationFailed, some attendanceWitnessStore) := by
  obtain ⟨-, hpres, hpost, -⟩ := attendance_status_validation
  exact ⟨hpres, hpost (some attendanceWitnessStore) invalidAttendanceInput 0 0 "b2" rfl⟩

/-! ## C9 — timestamps stamped by `create_document` -/

/-- The document stored by `create_document` carries the first clock read
under `created_at`. -/
theorem stored_getField_created_at (data : Doc) (t1 t2 : ℤ) (newId : String) :
    getField (("_id", Val.str newId) ::
        setField (setField data "created_at" (Val.dt t1)) "updated_at" (Val.dt t2))
      "created_at" = some (Val.dt t1) := by
  rw [getField, if_neg (by decide)]
  rw [getField_setField_ne _ _ _ _ (by decide)]
  exact getField_setField_self data "created_at" (Val.dt t1)

/-- The document stored by `create_document` carries the second clock read
under `updated_at`. -/
theorem stored_getField_updated_at (data : Doc) (t1 t2 : ℤ) (newId : String) :
    getField (("_id", Val.str newId) ::
        setField (setField data "created_at" (Val.dt t1)) "updated_at" (Val.dt t2))
      "updated_at" = some (Val.dt t2) := by
  rw [getField, if_neg (by decide)]
  exact getField_setField_self _ "updated_at" (Val.dt t2)

/-- C9 (counterexample): the source reads the clock once per field
(`datetime.now(timezone.utc)` twice); with the first read at instant 0 and
the second at instant 1 the stored document carries created_at = 0 and
updated_at = 1, two different values — created_at need not equal updated_at. -/
theorem create_document_two_clock_reads_cex :
    create_document [] [("x", Val.str "v")] 0 1 "id0" =
      ("id0", [[("_id", Val.str "id0"), ("x", Val.str "v"),
        ("created_at", Val.dt 0), ("updated_at", Val.dt 1)]]) ∧
    getField [("_id", Val.str "id0"), ("x", Val.str "v"),
        ("created_at", Val.dt 0), ("updated_at", Val.dt 1)] "created_at" =
      some (Val.dt 0) ∧
    getField [("_id", Val.str "id0"), ("x", Val.str "v"),
        ("created_at", Val.dt 0), ("updated_at", Val.dt 1)] "updated_at" =
      some (Val.dt 1) ∧
    Val.dt 0 ≠ Val.dt 1 := by
  refine ⟨rfl, rfl, rfl, by simp⟩

/-- C9 (amended): every document persisted by `create_document` is the
caller's record plus `created_at` stamped with the first clock read,
`updated_at` stamped with the second clock read (the two reads are separate
and may differ), and the store-generated `_id`; any caller-supplied
`created_at`/`updated_at` is overwritten by the stamps, and every other
caller-supplied field is stored unchanged. -/
theorem create_document_timestamps (coll : List Doc) (data : Doc)
    (t1 t2 : ℤ) (newId : String) :
    create_document coll data t1 t2 newId =
      (newId, coll ++ [("_id", Val.str newId) ::
        setField (setField data "created_at" (Val.dt t1)) "updated_at" (Val.dt t2)]) ∧
    getField (("_id", Val.str newId) ::
        setField (setField data "created_at" (Val.dt t1)) "updated_at" (Val.dt t2))
      "created_at" = some (Val.dt t1) ∧
    getField (("_id", Val.str newId) ::
        setField (setField data "created_at" (Val.dt t1)) "updated_at" (Val.dt t2))
      "updated_at" = some (Val.dt t2) ∧
    (∀ k, k ≠ "_id" → k ≠ "created_at" → k ≠ "updated_at" →
      getField (("_id", Val.str newId) ::
          setField (setField data "created_at" (Val.dt t1)) "updated_at" (Val.dt t2)) k =
        getField data k) := by
  refine ⟨rfl, stored_getField_created_at data t1 t2 newId,
    stored_getField_updated_at data t1 t2 newId, ?_⟩
  · intro k h1 h2 h3
    rw [getField, if_neg (Ne.symm h1)]
    rw [getField_setField_ne _ _ _ _ h3, getField_setField_ne _ _ _ _ h2]

/-- C9 (witness): the timestamp theorem at a concrete record and clock reads
— the caller field "x" is stored unchanged. -/
theorem create_document_timestamps_witness :
    getField (("_id", Val.str "id9") ::
        setField (setField [("x", Val.str "v")] "created_at" (Val.dt 5))
          "updated_at" (Val.dt 5)) "x" =
      getField [("x", Val.str "v")] "x" :=
  (create_document_timestamps [] [("x", Val.str "v")] 5 5 "id9").2.2.2 "x"
    (by decide) (by decide) (by decide)

/-! ## C10 — `create_document` does not mutate its input -/

/-- C10: over the explicit heap, `create_document` copies the caller's record
(`dict(data)`) and mutates only the copy: after the call the caller's
reference still holds exactly the original record — in particular, if it had
no `created_at`/`updated_at` fields it still has none — while the stored
document does carry both timestamps. -/
theorem create_document_no_mutation (heap coll : List Doc) (r : Nat)
    (t1 t2 : ℤ) (newId : String) (d : Doc) (h : heap[r]? = some d) :
    ∃ heap2 coll2 stored,
      create_document_heap heap coll r t1 t2 newId =
        some (heap2, coll2, stored, newId) ∧
      heap2[r]? = some d ∧
      getField stored "created_at" = some (Val.dt t1) ∧
      getField stored "updated_at" = some (Val.dt t2) ∧
      (getField d "created_at" = none →
        ∀ d', heap2[r]? = some d' → getField d' "created_at" = none) ∧
      (getField d "updated_at" = none →
        ∀ d', heap2[r]? = some d' → getField d' "updated_at" = none) := by
  have hr : r < heap.length := by
    by_contra hge
    rw [List.getElem?_eq_none (le_of_not_lt hge)] at h
    exact Option.noConfusion h
  have heq : create_document_heap heap coll r t1 t2 newId =
      some ((heap ++ [d]).set heap.length
          (setField (setField d "created_at" (Val.dt t1)) "updated_at" (Val.dt t2)),
        coll ++ [("_id", Val.str newId) ::
          setField (setField d "created_at" (Val.dt t1)) "updated_at" (Val.dt t2)],
        ("_id", Val.str newId) ::
          setField (setField d "created_at" (Val.dt t1)) "updated_at" (Val.dt t2),
        newId) := by
    unfold create_document_heap
    rw [h]
  have hframe : ((heap ++ [d]).set heap.length
      (setField (setField d "created_at" (Val.dt t1)) "updated_at" (Val.dt t2)))[r]? =
      some d := by
    rw [List.getElem?_set_ne (Nat.ne_of_gt hr)]
    rw [List.getElem?_append_left hr]
    exact h
  refine ⟨_, _, _, heq, hframe, ?_, ?_, ?_, ?_⟩
  · exact stored_getField_created_at d t1 t2 newId
  · exact stored_getField_updated_at d t1 t2 newId
  · intro hnone d' hd'
    rw [hframe] at hd'
    cases hd'
    exact hnone
  · intro hnone d' hd'
    rw [hframe] at hd'
    cases hd'
    exact hnone

/-- C10 (witness): the frame theorem at a concrete one-record heap — the
caller's record is unchanged by the call. -/
theorem create_document_no_mutation_witness :
    ∃ heap2 coll2 stored,
      create_document_heap [[("a", Val.str "1")]] [] 0 7 8 "idA" =
        some (heap2, coll2, stored, "idA") ∧
      heap2[0]? = some [("a", Val.str "1")] ∧
      getField stored "created_at" = some (Val.dt 7) ∧
      getField stored "updated_at" = some (Val.dt 8) ∧
      (getField [("a", Val.str "1")] "created_at" = none →
        ∀ d', heap2[0]? = some d' → getField d' "created_at" = none) ∧
      (getField [("a", Val.str "1")] "updated_at" = none →
        ∀ d', heap2[0]? = some d' → getField d' "updated_at" = none) :=
  create_document_no_mutation [[("a", Val.str "1")]] [] 0 7 8 "idA"
    [("a", Val.str "1")] rfl

end SchoolHelper
